import Mathlib

/-!
# Verification of bf-portal-gameplay-utils

Shallow embedding of the damage-smoothing engine and the cadence helpers of
the `bf-portal-gameplay-utils` repository (TypeScript, Battlefield 6 Portal).

Modelling conventions:
* JavaScript numbers are modelled as `ℚ` for health / distance quantities and
  as `Int` for tick counts, ids and object ids.  All quantities appearing in
  the verified claims are exactly representable, and the rounding behaviour
  of `mod.Ceiling` / `mod.Floor` on them coincides with `Int.ceil` / `Int.floor`
  over `ℚ`.
* All engine state is keyed by the stable player id, and every engine
  operation touches the state slice of a single player id (the drain loop
  visits each active id independently).  The embedding therefore models the
  state slice of one fixed player id: `PState` collects the fields
  `serverPlayers.get(id)` (presence = `known`, plus `player` handle and
  `isDeployed`), `dmgLastHealth[id]`, `dmgQueued[id]`, `dmgQueuedTicksLeft[id]`,
  `dmgQueuedGiverObjId[id]`, `dmgActive[id]` and `dmgIsReapplying[id]`.
  Map entries that are absent read as their defaults (`?? 0` in the source).
* Host-supplied facts (match liveness, handle validity, aliveness, team
  comparison, positions/distance, health readings) are inputs of each
  operation, packaged in context structures.
-/

/-! ## Damage smoothing: configuration (src/unnamed/part_001, lines 19 and 100-108) -/

def TICK_RATE : Int := 30

def DMG_SPREAD_CLOSE_MAX_DIST : ℚ := 10
def DMG_SPREAD_MID_MAX_DIST : ℚ := 25

def DMG_SPREAD_CLOSE_SEC : ℚ := 2
def DMG_SPREAD_MID_SEC : ℚ := 9/5
def DMG_SPREAD_FAR_SEC : ℚ := 8/5

def DMG_SPREAD_HEALTH_DELAY_MIN_FACTOR : ℚ := 9/20
def DMG_SPREAD_HEALTH_DELAY_MAX_FACTOR : ℚ := 1

/-! ## Damage smoothing: pure helpers (src/unnamed/part_001, lines 144-194) -/

/-- Embeds `dmgSpreadSecondsToTicks` (part_001 lines 173-176): `mod.Ceiling`
of seconds times the tick rate, floored at 1 tick. -/
def dmgSpreadSecondsToTicks (sec : ℚ) : Int :=
  let raw := ⌈sec * (TICK_RATE : ℚ)⌉
  if raw < 1 then 1 else raw

/-- Embeds `dmgSpreadDistanceMeters` (part_001 lines 178-184).  The host
position query is abstracted as `hostDistance`; the three validity checks are
the booleans the host would report. -/
def dmgSpreadDistanceMeters (attackerValid victimAlive attackerAlive : Bool)
    (hostDistance : ℚ) : ℚ :=
  if !attackerValid then 99999
  else if !victimAlive then 99999
  else if !attackerAlive then 99999
  else hostDistance

/-- Embeds `dmgSpreadPickTicks` (part_001 lines 186-194): three distance
buckets mapped to base durations in ticks. -/
def dmgSpreadPickTicks (distanceMeters : ℚ) : Int :=
  if distanceMeters ≤ DMG_SPREAD_CLOSE_MAX_DIST then
    dmgSpreadSecondsToTicks DMG_SPREAD_CLOSE_SEC
  else if distanceMeters ≤ DMG_SPREAD_MID_MAX_DIST then
    dmgSpreadSecondsToTicks DMG_SPREAD_MID_SEC
  else
    dmgSpreadSecondsToTicks DMG_SPREAD_FAR_SEC

/-- Embeds `dmgSpreadApplyHealthDelayScale` (part_001 lines 144-157).  The
source guard `typeof h !== "number" || !Number.isFinite(h)` coerces non-finite
doubles to 1; non-finite values have no counterpart in `ℚ`, so only the
`h < 0` / `h > 1` clamps appear here. -/
def dmgSpreadApplyHealthDelayScale (baseTicks : Int) (normalizedHealth : ℚ) : Int :=
  let h0 := normalizedHealth
  let h1 := if h0 < 0 then 0 else h0
  let h := if h1 > 1 then 1 else h1
  let factor := DMG_SPREAD_HEALTH_DELAY_MIN_FACTOR +
    (DMG_SPREAD_HEALTH_DELAY_MAX_FACTOR - DMG_SPREAD_HEALTH_DELAY_MIN_FACTOR) * h
  let scaled := ⌈(baseTicks : ℚ) * factor⌉
  if scaled < 1 then 1 else scaled

/-- The duration computation used by `OnPlayerDamaged` (part_001 lines
362-364): distance bucketing composed with seconds-to-ticks conversion and
health scaling.  The spec calls this composition `computeDuration`. -/
def computeDuration (distanceMeters : ℚ) (normalizedHealth : ℚ) : Int :=
  dmgSpreadApplyHealthDelayScale (dmgSpreadPickTicks distanceMeters) normalizedHealth

/-! ## Drain step formulas (part_001 lines 236-238, DamageSmoothing.ts lines
252-254, part_002 line 97) -/

/-- Embeds the step computation of `dmgSpreadProcessQueueTick` in
src/unnamed/part_001 lines 236-238 — identical text appears in
src/copy-paste/DamageSmoothing.ts lines 252-254:
`let step = mod.Ceiling(remaining / ticksLeft); if (step < 1) step = 1;
if (step > remaining) step = remaining;`. -/
def dmgSpreadProcessQueueTickStep (remaining : ℚ) (ticksLeft : Int) : ℚ :=
  let step0 : ℚ := (⌈remaining / (ticksLeft : ℚ)⌉ : ℚ)
  let step1 := if step0 < 1 then 1 else step0
  if step1 > remaining then remaining else step1

/-- Embeds the step computation of `dmgSpreadTick` in src/unnamed/part_002
line 97: `const step = mod.Max(1, mod.Ceil(remaining / ticks));` — note the
absence of the upper clamp to `remaining`. -/
def dmgSpreadTickStep (remaining : ℚ) (ticks : Int) : ℚ :=
  max 1 ((⌈remaining / (ticks : ℚ)⌉ : ℤ) : ℚ)

/-- One pure drain iteration on the `(pendingAmount, ticksRemaining)` pair,
following the part_001 loop body for a player that stays valid, alive and
deployed: guard on non-positive pool or tick count, then subtract the step
and decrement the tick count (part_001 lines 228-253). -/
def drainPairStep (p : ℚ × Int) : ℚ × Int :=
  if p.1 ≤ 0 ∨ p.2 ≤ 0 then p
  else (p.1 - dmgSpreadProcessQueueTickStep p.1 p.2, p.2 - 1)

/-! ## Cadence helpers (src/copy-paste/PerfThrottles.ts, lines 42-79) -/

/-- Result type of `perfMakeCadence` (PerfThrottles.ts lines 18-30). -/
structure PerfCadence where
  fast : Int
  captureLogic : Int
  uiScores : Int
  sfx : Int
deriving Repr, DecidableEq

/-- Embeds the local `safe` helper of `perfMakeCadence` (PerfThrottles.ts
line 43): `mod.Max(1, mod.Floor(n))`. -/
def perfSafe (n : ℚ) : Int := max 1 ⌊n⌋

/-- Embeds `perfMakeCadence` (PerfThrottles.ts lines 42-51). -/
def perfMakeCadence (tickRate : ℚ) : PerfCadence :=
  { fast := perfSafe (tickRate / 10)
    captureLogic := perfSafe (tickRate / 6)
    uiScores := perfSafe (tickRate / 3)
    sfx := perfSafe (tickRate / 2) }

/-- Embeds `perfEveryTicks` (PerfThrottles.ts lines 56-59). -/
def perfEveryTicks (tickCount : Int) (intervalTicks : ℚ) : Bool :=
  let n := max 1 ⌊intervalTicks⌋
  tickCount % n == 0

/-- Loop body of `perfRoundRobinSlice` (PerfThrottles.ts lines 72-76):
push `items[c]` (`none` models JavaScript `undefined` for an out-of-range
index), advance the cursor, wrap it to 0 when it reaches the length. -/
def perfRoundRobinGo (items : List α) : Nat → Nat → List (Option α) × Nat
  | 0, c => ([], c)
  | Nat.succ k, c =>
    let item := items.get? c
    let c1 := c + 1
    let c2 := if c1 ≥ items.length then 0 else c1
    let rest := perfRoundRobinGo items k c2
    (item :: rest.1, rest.2)

/-- Embeds `perfRoundRobinSlice` (PerfThrottles.ts lines 65-79). -/
def perfRoundRobinSlice (items : List α) (cursor : Nat) (maxPerExec : ℚ) :
    List (Option α) × Nat :=
  let n := (max 1 ⌊maxPerExec⌋).toNat
  if items.length = 0 then ([], 0)
  else perfRoundRobinGo items n cursor

/-! ## Per-player engine state -/

/-- The engine state slice for one player id: the `serverPlayers` record
(presence, stored handle, `isDeployed`) and the per-id entries of the six
damage-smoothing maps (part_001 lines 34-46 and 122-130). -/
structure PState where
  known : Bool
  handle : Int
  isDeployed : Bool
  lastHealth : Option ℚ
  queued : ℚ
  ticksLeft : Int
  giverObjId : Int
  active : Bool
  isReapplying : Bool
deriving Repr, DecidableEq

/-- The state slice of a player the engine has never seen: no record, and all
map entries absent (absent numeric entries read as 0 through `?? 0`). -/
def initPState : PState :=
  { known := false, handle := 0, isDeployed := false, lastHealth := none
    queued := 0, ticksLeft := 0, giverObjId := 0, active := false
    isReapplying := false }

/-- Embeds `getOrCreateServerPlayer` (part_001 lines 48-67): return the
existing record (refreshing the stored handle) or create one with
`isDeployed = false`, seeding `dmgLastHealth` to the player's current health
and the queue caches to zero/false. -/
def getOrCreateServerPlayer (handle : Int) (curHealth : ℚ) (s : PState) : PState :=
  if s.known then { s with handle := handle }
  else
    { s with known := true, handle := handle, isDeployed := false
             lastHealth := some curHealth, queued := 0, ticksLeft := 0
             giverObjId := 0, active := false, isReapplying := false }

/-! ## The damage event handler (src/unnamed/part_001, lines 310-371) -/

/-- Host-supplied facts observed during one `OnPlayerDamaged` call: liveness,
validity, aliveness, team comparison, health readings, positions (as the
distance the host would report) and the attacker's object id. -/
structure HitCtx where
  matchLive : Bool
  victimValid : Bool
  victimAlive : Bool
  victimHandle : Int
  curHealth : ℚ
  attackerValid : Bool
  attackerIsVictim : Bool
  sameTeam : Bool
  attackerAlive : Bool
  hostDistance : ℚ
  normHealth : ℚ
  attackerObjId : Int
deriving Repr, DecidableEq

/-- Result of one `OnPlayerDamaged` call: the new state slice, the amount
passed to `mod.Heal` (0 when no heal happened) and the delta enqueued for
smoothing (0 when the call short-circuited). -/
structure HitOut where
  state : PState
  healed : ℚ
  intercepted : ℚ
deriving Repr, DecidableEq

/-- Embeds `OnPlayerDamaged` (part_001 lines 310-371).  The eight guard
conditions are evaluated in source order; the intercept branch heals the
victim by `delta`, keeps the baseline at its pre-hit value, accumulates
`delta` into the queue, overwrites the tick count with the freshly computed
duration and the giver object id with the attacker's id, and marks the
player active. -/
def OnPlayerDamaged (c : HitCtx) (s : PState) : HitOut :=
  if !c.matchLive then ⟨s, 0, 0⟩
  else if !c.victimValid then ⟨s, 0, 0⟩
  else if !c.victimAlive then ⟨s, 0, 0⟩
  else
    let s1 := getOrCreateServerPlayer c.victimHandle c.curHealth s
    if !s1.isDeployed then ⟨s1, 0, 0⟩
    else
      let cur := c.curHealth
      if s1.isReapplying then ⟨{ s1 with lastHealth := some cur }, 0, 0⟩
      else if !c.attackerValid || c.attackerIsVictim then
        ⟨{ s1 with lastHealth := some cur }, 0, 0⟩
      else if c.sameTeam then ⟨{ s1 with lastHealth := some cur }, 0, 0⟩
      else
        match s1.lastHealth with
        | none => ⟨{ s1 with lastHealth := some cur }, 0, 0⟩
        | some prev =>
          let delta := prev - cur
          if delta ≤ 0 then ⟨{ s1 with lastHealth := some cur }, 0, 0⟩
          else
            let dist := dmgSpreadDistanceMeters c.attackerValid c.victimAlive
              c.attackerAlive c.hostDistance
            let baseTicks := dmgSpreadPickTicks dist
            let spreadTicks := dmgSpreadApplyHealthDelayScale baseTicks c.normHealth
            ⟨{ s1 with lastHealth := some prev
                       queued := s1.queued + delta
                       ticksLeft := spreadTicks
                       giverObjId := c.attackerObjId
                       active := true },
              delta, delta⟩

/-! ## The drain tick (src/unnamed/part_001, lines 212-259) -/

/-- Host-supplied facts observed while the drain tick processes one active
player: liveness of the match, validity/aliveness of the victim handle, and
the `OnPlayerDamaged` event that the engine's own `mod.DealDamage` call makes
the host fire back synchronously (`none` when the host does not deliver it,
e.g. because the step killed the victim). -/
structure DrainCtx where
  matchLive : Bool
  victimValid : Bool
  victimAlive : Bool
  giverResolved : Bool
  nestedEvent : Option HitCtx
deriving Repr, DecidableEq

/-- Result of the drain tick body for one active player: the new state slice,
the step dealt by `mod.DealDamage` (0 when nothing was dealt), and the heal /
intercept amounts of the nested `OnPlayerDamaged` event. -/
structure DrainOut where
  state : PState
  step : ℚ
  nestedHealed : ℚ
  nestedIntercepted : ℚ
deriving Repr, DecidableEq

/-- The `OnPlayerDamaged` event that the engine's own `mod.DealDamage` call
(part_001 lines 244-250) makes the host fire back synchronously while the
re-entrancy flag is set; `none` models the host not delivering the event. -/
def dmgDrainNested (g : DrainCtx) (s1 : PState) : HitOut :=
  match g.nestedEvent with
  | some c => OnPlayerDamaged c s1
  | none => ⟨s1, 0, 0⟩

/-- Embeds the body of `dmgSpreadProcessQueueTick` (part_001 lines 212-259)
for one player id in the active list.  The tick-level guard `isMatchLive` is
`matchLive`; a player id absent from `dmgActiveIds` is not visited, which is
the `!s.active` case.  The re-entrancy flag is set around `mod.DealDamage`,
whose synchronous damage event is modelled by running `OnPlayerDamaged` on
`nestedEvent`; `giverResolved` only selects the `DealDamage` overload and
does not affect the state arithmetic. -/
def dmgSpreadProcessQueueTick (g : DrainCtx) (s : PState) : DrainOut :=
  if !g.matchLive then ⟨s, 0, 0, 0⟩
  else if !s.active then ⟨s, 0, 0, 0⟩
  else if !s.known || !s.isDeployed || !g.victimValid || !g.victimAlive then
    ⟨{ s with queued := 0, ticksLeft := 0, giverObjId := 0, active := false }, 0, 0, 0⟩
  else
    let remaining := s.queued
    let ticksLeft := s.ticksLeft
    if remaining ≤ 0 ∨ ticksLeft ≤ 0 then ⟨{ s with active := false }, 0, 0, 0⟩
    else
      let step := dmgSpreadProcessQueueTickStep remaining ticksLeft
      let s1 := { s with isReapplying := true }
      let o : HitOut := dmgDrainNested g s1
      let s2 := { o.state with isReapplying := false }
      let s3 : PState := { s2 with queued := s2.queued - step, ticksLeft := s2.ticksLeft - 1 }
      if s3.queued ≤ 0 ∨ s3.ticksLeft ≤ 0 then
        ⟨{ s3 with active := false }, step, o.healed, o.intercepted⟩
      else
        ⟨s3, step, o.healed, o.intercepted⟩

/-! ## Deploy / death events (src/unnamed/part_001, lines 276-304) -/

/-- Embeds `OnPlayerDeployed` (part_001 lines 276-289): mark deployed, seed
the health cache, clear any stale queue and deactivate. -/
def OnPlayerDeployed (valid : Bool) (handle : Int) (curHealth : ℚ) (s : PState) : PState :=
  if !valid then s
  else
    let s1 := getOrCreateServerPlayer handle curHealth s
    { s1 with isDeployed := true, lastHealth := some curHealth
              queued := 0, ticksLeft := 0, giverObjId := 0, active := false }

/-- Embeds `OnPlayerDied` (part_001 lines 294-304): mark undeployed, clear
the queue and deactivate. -/
def OnPlayerDied (valid : Bool) (handle : Int) (curHealth : ℚ) (s : PState) : PState :=
  if !valid then s
  else
    let s1 := getOrCreateServerPlayer handle curHealth s
    { s1 with isDeployed := false
              queued := 0, ticksLeft := 0, giverObjId := 0, active := false }

/-! ## Event traces for the conservation property -/

/-- One externally observable engine stimulus touching the tracked player:
a host damage event, or one visit of the per-tick drain loop. -/
inductive DmgEvent where
  | damaged (c : HitCtx)
  | drain (g : DrainCtx)
deriving Repr, DecidableEq

/-- Accumulated run of the engine on one player: current state slice, total
damage reapplied by drain steps, total instantaneous heal-back, and total raw
deltas intercepted by `OnPlayerDamaged`. -/
structure RunAcc where
  state : PState
  steps : ℚ
  heals : ℚ
  deltas : ℚ
deriving Repr, DecidableEq

/-- Process one event, accumulating applied steps, heals and intercepted
deltas. -/
def dmgStepEvent (a : RunAcc) (e : DmgEvent) : RunAcc :=
  match e with
  | .damaged c =>
    let o := OnPlayerDamaged c a.state
    ⟨o.state, a.steps, a.heals + o.healed, a.deltas + o.intercepted⟩
  | .drain g =>
    let o := dmgSpreadProcessQueueTick g a.state
    ⟨o.state, a.steps + o.step, a.heals + o.nestedHealed,
      a.deltas + o.nestedIntercepted⟩

/-- Run a list of events from a starting state slice with zeroed
accumulators. -/
def dmgRunEvents (s0 : PState) (evs : List DmgEvent) : RunAcc :=
  evs.foldl dmgStepEvent ⟨s0, 0, 0, 0⟩

/-- No-cancellation condition of the conservation claim: during every drain
visit the match is live and the victim's handle is valid and alive.  Damage
events are unrestricted. -/
def dmgNoCancel : DmgEvent → Prop
  | .damaged _ => True
  | .drain g => g.matchLive = true ∧ g.victimValid = true ∧ g.victimAlive = true

instance : DecidablePred dmgNoCancel := by
  intro e
  cases e with
  | damaged c => exact inferInstanceAs (Decidable True)
  | drain g => exact inferInstanceAs (Decidable (_ ∧ _ ∧ _))

/-! ## Concrete inputs used by witnesses and counterexamples -/

/-- A tracked, deployed, full-health player with an empty queue (the state
slice right after a deploy event). -/
def witDeployed : PState :=
  { known := true, handle := 1, isDeployed := true, lastHealth := some 100
    queued := 0, ticksLeft := 0, giverObjId := 0, active := false
    isReapplying := false }

/-- A live enemy hit at close range that drops the victim from baseline 100
to 98 health. -/
def witHit : HitCtx :=
  { matchLive := true, victimValid := true, victimAlive := true
    victimHandle := 1, curHealth := 98, attackerValid := true
    attackerIsVictim := false, sameTeam := false, attackerAlive := true
    hostDistance := 5, normHealth := 0, attackerObjId := 7 }

/-- A drain visit with the match live and the victim valid and alive; the
host does not deliver a nested damage event. -/
def witDrain : DrainCtx :=
  { matchLive := true, victimValid := true, victimAlive := true
    giverResolved := true, nestedEvent := none }

/-- Two-tick conservation trace: one intercepted hit of delta 2, then two
drain visits. -/
def witTrace : List DmgEvent :=
  [DmgEvent.damaged witHit, DmgEvent.drain witDrain, DmgEvent.drain witDrain]

/-- A tracked, deployed player mid-smoothing: pending pool 1, tick budget 27
(the duration a close-range hit on a near-dead victim computes). -/
def witSmoothing : PState :=
  { known := true, handle := 1, isDeployed := true, lastHealth := some 100
    queued := 1, ticksLeft := computeDuration 5 0, giverObjId := 7
    active := true, isReapplying := false }

/-- A damage event arriving while the match is not live, on a victim whose
cached baseline (50) differs from its current health (30). -/
def witNotLiveHit : HitCtx :=
  { matchLive := false, victimValid := true, victimAlive := true
    victimHandle := 1, curHealth := 30, attackerValid := true
    attackerIsVictim := false, sameTeam := false, attackerAlive := true
    hostDistance := 5, normHealth := 3/10, attackerObjId := 9 }

/-- A tracked, deployed player whose cached baseline is 50. -/
def witBaseline50 : PState :=
  { known := true, handle := 1, isDeployed := true, lastHealth := some 50
    queued := 0, ticksLeft := 0, giverObjId := 0, active := false
    isReapplying := false }

/-- A live friendly-fire hit (attacker on the victim's team). -/
def witFriendlyHit : HitCtx :=
  { matchLive := true, victimValid := true, victimAlive := true
    victimHandle := 1, curHealth := 40, attackerValid := true
    attackerIsVictim := false, sameTeam := true, attackerAlive := true
    hostDistance := 12, normHealth := 2/5, attackerObjId := 9 }

/-- A live enemy hit on a victim that already has a pending pool: baseline
90, current health 60, mid-range distance. -/
def witSecondHit : HitCtx :=
  { matchLive := true, victimValid := true, victimAlive := true
    victimHandle := 1, curHealth := 60, attackerValid := true
    attackerIsVictim := false, sameTeam := false, attackerAlive := true
    hostDistance := 20, normHealth := 3/5, attackerObjId := 11 }

/-- A tracked, deployed player already smoothing a pool of 4 with 30 ticks
left, credited to object id 7. -/
def witPending : PState :=
  { known := true, handle := 1, isDeployed := true, lastHealth := some 90
    queued := 4, ticksLeft := 30, giverObjId := 7, active := true
    isReapplying := false }

/-! ## Helper lemmas about the drain step -/

/-- The two sequential clamps of the part_001 drain step equal the spec's
`clamp(ceil(pendingAmount / ticksRemaining), 1, pendingAmount)`. -/
theorem step_eq_clamp (remaining : ℚ) (ticksLeft : Int) :
    dmgSpreadProcessQueueTickStep remaining ticksLeft =
      min (max 1 ((⌈remaining / (ticksLeft : ℚ)⌉ : ℤ) : ℚ)) remaining := by
  simp only [dmgSpreadProcessQueueTickStep, min_def, max_def]
  split_ifs <;> first | rfl | linarith

/-- The part_001 drain step never exceeds the remaining pool. -/
theorem step_le_self (remaining : ℚ) (ticksLeft : Int) :
    dmgSpreadProcessQueueTickStep remaining ticksLeft ≤ remaining := by
  rw [step_eq_clamp]
  exact min_le_right _ _

/-- The part_001 drain step is positive on a positive pool. -/
theorem step_pos (remaining : ℚ) (ticksLeft : Int) (h : 0 < remaining) :
    0 < dmgSpreadProcessQueueTickStep remaining ticksLeft := by
  rw [step_eq_clamp]
  exact lt_min (lt_of_lt_of_le one_pos (le_max_left _ _)) h

/-- On the last remaining tick the part_001 drain step equals the whole
remaining pool. -/
theorem step_last (remaining : ℚ) :
    dmgSpreadProcessQueueTickStep remaining 1 = remaining := by
  rw [step_eq_clamp]
  have h1 : remaining ≤ ((⌈remaining / ((1:Int) : ℚ)⌉ : ℤ) : ℚ) := by
    push_cast
    simpa using Int.le_ceil remaining
  exact min_eq_right (le_trans h1 (le_max_right _ _))

/-- An emptied pool is a fixed point of the pure drain iteration. -/
theorem drainPair_zero_fixed (t : Int) (n : ℕ) :
    (drainPairStep^[n]) ((0 : ℚ), t) = ((0 : ℚ), t) := by
  apply Function.iterate_fixed
  simp [drainPairStep]

/-- The pure part_001 drain iteration empties a positive pool of
`ticksRemaining = t` in at most `t` applications. -/
theorem drainPair_empties :
    ∀ (n : ℕ) (r : ℚ) (t : Int), 0 ≤ r → (0 < r → 0 < t ∧ t ≤ (n : Int)) →
      ((drainPairStep^[n]) (r, t)).1 = 0 := by
  intro n
  induction n with
  | zero =>
    intro r t h0 h1
    rcases eq_or_lt_of_le h0 with h | h
    · simpa [Function.iterate_zero] using h.symm
    · obtain ⟨ht, htn⟩ := h1 h
      exfalso
      push_cast at htn
      omega
  | succ n ih =>
    intro r t h0 h1
    rcases eq_or_lt_of_le h0 with h | h
    · rw [← h, drainPair_zero_fixed]
    · obtain ⟨ht, htn⟩ := h1 h
      rw [Function.iterate_succ_apply]
      have hguard : ¬ ((r : ℚ) ≤ 0 ∨ t ≤ 0) := by
        push_neg
        exact ⟨h, ht⟩
      have hstep : drainPairStep (r, t) = (r - dmgSpreadProcessQueueTickStep r t, t - 1) := by
        simp only [drainPairStep]
        rw [if_neg hguard]
      rw [hstep]
      apply ih
      · linarith [step_le_self r t]
      · intro hr2
        have ht2 : t ≠ 1 := by
          intro h1eq
          rw [h1eq, step_last] at hr2
          simp at hr2
        constructor
        · omega
        · push_cast at htn ⊢
          omega

/-! ## Helper lemmas about OnPlayerDamaged -/

theorem OPD_notLive (c : HitCtx) (s : PState) (h : c.matchLive = false) :
    OnPlayerDamaged c s = ⟨s, 0, 0⟩ := by
  simp [OnPlayerDamaged, h]

theorem OPD_invalid (c : HitCtx) (s : PState) (h1 : c.matchLive = true)
    (h2 : c.victimValid = false) :
    OnPlayerDamaged c s = ⟨s, 0, 0⟩ := by
  simp [OnPlayerDamaged, h1, h2]

theorem OPD_dead (c : HitCtx) (s : PState) (h1 : c.matchLive = true)
    (h2 : c.victimValid = true) (h3 : c.victimAlive = false) :
    OnPlayerDamaged c s = ⟨s, 0, 0⟩ := by
  simp [OnPlayerDamaged, h1, h2, h3]

theorem OPD_notDeployed (c : HitCtx) (s : PState) (h1 : c.matchLive = true)
    (h2 : c.victimValid = true) (h3 : c.victimAlive = true)
    (h4 : (getOrCreateServerPlayer c.victimHandle c.curHealth s).isDeployed = false) :
    OnPlayerDamaged c s = ⟨getOrCreateServerPlayer c.victimHandle c.curHealth s, 0, 0⟩ := by
  simp [OnPlayerDamaged, h1, h2, h3, h4]

theorem OPD_guarded (c : HitCtx) (s : PState) (h1 : c.matchLive = true)
    (h2 : c.victimValid = true) (h3 : c.victimAlive = true)
    (h4 : (getOrCreateServerPlayer c.victimHandle c.curHealth s).isDeployed = true)
    (h5 : (getOrCreateServerPlayer c.victimHandle c.curHealth s).isReapplying = true) :
    OnPlayerDamaged c s =
      ⟨{ getOrCreateServerPlayer c.victimHandle c.curHealth s with
          lastHealth := some c.curHealth }, 0, 0⟩ := by
  simp [OnPlayerDamaged, h1, h2, h3, h4, h5]

theorem OPD_selfOrInvalid (c : HitCtx) (s : PState) (h1 : c.matchLive = true)
    (h2 : c.victimValid = true) (h3 : c.victimAlive = true)
    (h4 : (getOrCreateServerPlayer c.victimHandle c.curHealth s).isDeployed = true)
    (h5 : (getOrCreateServerPlayer c.victimHandle c.curHealth s).isReapplying = false)
    (h6 : c.attackerValid = false ∨ c.attackerIsVictim = true) :
    OnPlayerDamaged c s =
      ⟨{ getOrCreateServerPlayer c.victimHandle c.curHealth s with
          lastHealth := some c.curHealth }, 0, 0⟩ := by
  rcases h6 with h6 | h6 <;> simp [OnPlayerDamaged, h1, h2, h3, h4, h5, h6]

theorem OPD_sameTeam (c : HitCtx) (s : PState) (h1 : c.matchLive = true)
    (h2 : c.victimValid = true) (h3 : c.victimAlive = true)
    (h4 : (getOrCreateServerPlayer c.victimHandle c.curHealth s).isDeployed = true)
    (h5 : (getOrCreateServerPlayer c.victimHandle c.curHealth s).isReapplying = false)
    (h6 : c.attackerValid = true) (h7 : c.attackerIsVictim = false)
    (h8 : c.sameTeam = true) :
    OnPlayerDamaged c s =
      ⟨{ getOrCreateServerPlayer c.victimHandle c.curHealth s with
          lastHealth := some c.curHealth }, 0, 0⟩ := by
  simp [OnPlayerDamaged, h1, h2, h3, h4, h5, h6, h7, h8]

theorem OPD_noBaseline (c : HitCtx) (s : PState) (h1 : c.matchLive = true)
    (h2 : c.victimValid = true) (h3 : c.victimAlive = true)
    (h4 : (getOrCreateServerPlayer c.victimHandle c.curHealth s).isDeployed = true)
    (h5 : (getOrCreateServerPlayer c.victimHandle c.curHealth s).isReapplying = false)
    (h6 : c.attackerValid = true) (h7 : c.attackerIsVictim = false)
    (h8 : c.sameTeam = false)
    (h9 : (getOrCreateServerPlayer c.victimHandle c.curHealth s).lastHealth = none) :
    OnPlayerDamaged c s =
      ⟨{ getOrCreateServerPlayer c.victimHandle c.curHealth s with
          lastHealth := some c.curHealth }, 0, 0⟩ := by
  simp [OnPlayerDamaged, h1, h2, h3, h4, h5, h6, h7, h8, h9]

theorem OPD_noDelta (c : HitCtx) (s : PState) (prev : ℚ) (h1 : c.matchLive = true)
    (h2 : c.victimValid = true) (h3 : c.victimAlive = true)
    (h4 : (getOrCreateServerPlayer c.victimHandle c.curHealth s).isDeployed = true)
    (h5 : (getOrCreateServerPlayer c.victimHandle c.curHealth s).isReapplying = false)
    (h6 : c.attackerValid = true) (h7 : c.attackerIsVictim = false)
    (h8 : c.sameTeam = false)
    (h9 : (getOrCreateServerPlayer c.victimHandle c.curHealth s).lastHealth = some prev)
    (h10 : prev - c.curHealth ≤ 0) :
    OnPlayerDamaged c s =
      ⟨{ getOrCreateServerPlayer c.victimHandle c.curHealth s with
          lastHealth := some c.curHealth }, 0, 0⟩ := by
  simp [OnPlayerDamaged, h1, h2, h3, h4, h5, h6, h7, h8, h9, h10]

theorem OPD_intercept (c : HitCtx) (s : PState) (prev : ℚ) (h1 : c.matchLive = true)
    (h2 : c.victimValid = true) (h3 : c.victimAlive = true)
    (h4 : (getOrCreateServerPlayer c.victimHandle c.curHealth s).isDeployed = true)
    (h5 : (getOrCreateServerPlayer c.victimHandle c.curHealth s).isReapplying = false)
    (h6 : c.attackerValid = true) (h7 : c.attackerIsVictim = false)
    (h8 : c.sameTeam = false)
    (h9 : (getOrCreateServerPlayer c.victimHandle c.curHealth s).lastHealth = some prev)
    (h10 : ¬ prev - c.curHealth ≤ 0) :
    OnPlayerDamaged c s =
      ⟨{ getOrCreateServerPlayer c.victimHandle c.curHealth s with
          lastHealth := some prev
          queued := (getOrCreateServerPlayer c.victimHandle c.curHealth s).queued +
            (prev - c.curHealth)
          ticksLeft := computeDuration
            (dmgSpreadDistanceMeters c.attackerValid c.victimAlive c.attackerAlive
              c.hostDistance) c.normHealth
          giverObjId := c.attackerObjId
          active := true },
        prev - c.curHealth, prev - c.curHealth⟩ := by
  simp [OnPlayerDamaged, computeDuration, h1, h2, h3, h4, h5, h6, h7, h8, h9, h10]

theorem getOrCreate_known (handle : Int) (cur : ℚ) (s : PState) (h : s.known = true) :
    getOrCreateServerPlayer handle cur s = { s with handle := handle } := by
  simp [getOrCreateServerPlayer, h]

theorem getOrCreate_new (handle : Int) (cur : ℚ) (s : PState) (h : s.known = false) :
    getOrCreateServerPlayer handle cur s =
      { s with known := true, handle := handle, isDeployed := false
               lastHealth := some cur, queued := 0, ticksLeft := 0
               giverObjId := 0, active := false, isReapplying := false } := by
  simp [getOrCreateServerPlayer, h]

theorem OPD_cases (c : HitCtx) (s : PState) :
    OnPlayerDamaged c s = ⟨s, 0, 0⟩ ∨
    OnPlayerDamaged c s = ⟨getOrCreateServerPlayer c.victimHandle c.curHealth s, 0, 0⟩ ∨
    OnPlayerDamaged c s =
      ⟨{ getOrCreateServerPlayer c.victimHandle c.curHealth s with
          lastHealth := some c.curHealth }, 0, 0⟩ ∨
    (∃ prev,
      (getOrCreateServerPlayer c.victimHandle c.curHealth s).lastHealth = some prev ∧
      0 < prev - c.curHealth ∧
      (getOrCreateServerPlayer c.victimHandle c.curHealth s).isDeployed = true ∧
      c.matchLive = true ∧ c.victimValid = true ∧ c.victimAlive = true ∧
      (getOrCreateServerPlayer c.victimHandle c.curHealth s).isReapplying = false ∧
      c.attackerValid = true ∧ c.attackerIsVictim = false ∧ c.sameTeam = false ∧
      OnPlayerDamaged c s =
        ⟨{ getOrCreateServerPlayer c.victimHandle c.curHealth s with
            lastHealth := some prev
            queued := (getOrCreateServerPlayer c.victimHandle c.curHealth s).queued +
              (prev - c.curHealth)
            ticksLeft := computeDuration
              (dmgSpreadDistanceMeters c.attackerValid c.victimAlive c.attackerAlive
                c.hostDistance) c.normHealth
            giverObjId := c.attackerObjId
            active := true },
          prev - c.curHealth, prev - c.curHealth⟩) := by
  cases h1 : c.matchLive with
  | false => exact Or.inl (OPD_notLive c s h1)
  | true =>
  cases h2 : c.victimValid with
  | false => exact Or.inl (OPD_invalid c s h1 h2)
  | true =>
  cases h3 : c.victimAlive with
  | false => exact Or.inl (OPD_dead c s h1 h2 h3)
  | true =>
  cases h4 : (getOrCreateServerPlayer c.victimHandle c.curHealth s).isDeployed with
  | false => exact Or.inr (Or.inl (OPD_notDeployed c s h1 h2 h3 h4))
  | true =>
  cases h5 : (getOrCreateServerPlayer c.victimHandle c.curHealth s).isReapplying with
  | true => exact Or.inr (Or.inr (Or.inl (OPD_guarded c s h1 h2 h3 h4 h5)))
  | false =>
  cases h6 : c.attackerValid with
  | false => exact Or.inr (Or.inr (Or.inl (OPD_selfOrInvalid c s h1 h2 h3 h4 h5 (Or.inl h6))))
  | true =>
  cases h7 : c.attackerIsVictim with
  | true => exact Or.inr (Or.inr (Or.inl (OPD_selfOrInvalid c s h1 h2 h3 h4 h5 (Or.inr h7))))
  | false =>
  cases h8 : c.sameTeam with
  | true => exact Or.inr (Or.inr (Or.inl (OPD_sameTeam c s h1 h2 h3 h4 h5 h6 h7 h8)))
  | false =>
  cases h9 : (getOrCreateServerPlayer c.victimHandle c.curHealth s).lastHealth with
  | none => exact Or.inr (Or.inr (Or.inl (OPD_noBaseline c s h1 h2 h3 h4 h5 h6 h7 h8 h9)))
  | some prev =>
  rcases le_or_lt (prev - c.curHealth) 0 with h10 | h10
  · exact Or.inr (Or.inr (Or.inl (OPD_noDelta c s prev h1 h2 h3 h4 h5 h6 h7 h8 h9 h10)))
  · exact Or.inr (Or.inr (Or.inr ⟨prev, rfl, h10, rfl, rfl, rfl, rfl, rfl, rfl, rfl, rfl, by
      rw [OPD_intercept c s prev h1 h2 h3 h4 h5 h6 h7 h8 h9 (not_le.mpr h10), h3, h6]⟩))

theorem scale_one_le (baseTicks : Int) (h : ℚ) :
    1 ≤ dmgSpreadApplyHealthDelayScale baseTicks h := by
  simp only [dmgSpreadApplyHealthDelayScale]
  split_ifs <;> omega

theorem computeDuration_one_le (d : ℚ) (h : ℚ) : 1 ≤ computeDuration d h :=
  scale_one_le _ _

theorem OnPlayerDamaged_accounting (c : HitCtx) (s : PState)
    (h0 : 0 ≤ s.queued)
    (h1 : s.ticksLeft ≤ 0 → s.queued = 0)
    (h2 : 0 < s.queued → s.known = true ∧ s.isDeployed = true) :
    (OnPlayerDamaged c s).healed = (OnPlayerDamaged c s).intercepted ∧
    0 ≤ (OnPlayerDamaged c s).intercepted ∧
    (OnPlayerDamaged c s).state.queued = s.queued + (OnPlayerDamaged c s).intercepted ∧
    ((OnPlayerDamaged c s).state.ticksLeft ≤ 0 → (OnPlayerDamaged c s).state.queued = 0) ∧
    (0 < (OnPlayerDamaged c s).state.queued →
      (OnPlayerDamaged c s).state.known = true ∧
      (OnPlayerDamaged c s).state.isDeployed = true) := by
  have hknew : s.known = false → s.queued = 0 := by
    intro hk
    rcases lt_or_eq_of_le h0 with h | h
    · exact absurd (h2 h).1 (by simp [hk])
    · exact h.symm
  rcases OPD_cases c s with h | h | h |
    ⟨prev, hprev, hdelta, hdep, hml, hvv, hva, hnr, hav, haiv, hst, h⟩
  · rw [h]
    exact ⟨rfl, le_refl 0, by simp, h1, h2⟩
  · rw [h]
    cases hk : s.known with
    | true =>
      rw [getOrCreate_known _ _ _ hk]
      exact ⟨rfl, le_refl 0, by simp, h1, fun hq => (h2 hq).imp id id⟩
    | false =>
      rw [getOrCreate_new _ _ _ hk]
      simp [hknew hk]
  · rw [h]
    cases hk : s.known with
    | true =>
      rw [getOrCreate_known _ _ _ hk]
      exact ⟨rfl, le_refl 0, by simp, h1, fun hq => (h2 hq).imp id id⟩
    | false =>
      rw [getOrCreate_new _ _ _ hk]
      simp [hknew hk]
  · have hk : s.known = true := by
      cases hk : s.known with
      | true => rfl
      | false =>
        rw [getOrCreate_new _ _ _ hk] at hdep
        simp at hdep
    rw [h]
    rw [getOrCreate_known _ _ _ hk] at hprev ⊢
    refine ⟨rfl, le_of_lt hdelta, by simp, fun hts => ?_, fun _ => ⟨hk, ?_⟩⟩
    · dsimp only at hts
      exact absurd hts (by
        have := computeDuration_one_le
          (dmgSpreadDistanceMeters c.attackerValid c.victimAlive c.attackerAlive
            c.hostDistance) c.normHealth
        omega)
    · rw [getOrCreate_known _ _ _ hk] at hdep
      exact hdep


/-! ## Helper lemmas about the drain tick -/

theorem DPT_notLive (g : DrainCtx) (s : PState) (h : g.matchLive = false) :
    dmgSpreadProcessQueueTick g s = ⟨s, 0, 0, 0⟩ := by
  simp [dmgSpreadProcessQueueTick, h]

theorem DPT_inactive (g : DrainCtx) (s : PState) (h1 : g.matchLive = true)
    (h2 : s.active = false) :
    dmgSpreadProcessQueueTick g s = ⟨s, 0, 0, 0⟩ := by
  simp [dmgSpreadProcessQueueTick, h1, h2]

theorem DPT_forceReset (g : DrainCtx) (s : PState) (h1 : g.matchLive = true)
    (h2 : s.active = true)
    (h3 : s.known = false ∨ s.isDeployed = false ∨ g.victimValid = false ∨
      g.victimAlive = false) :
    dmgSpreadProcessQueueTick g s =
      ⟨{ s with queued := 0, ticksLeft := 0, giverObjId := 0, active := false },
        0, 0, 0⟩ := by
  rcases h3 with h3 | h3 | h3 | h3 <;> simp [dmgSpreadProcessQueueTick, h1, h2, h3]

theorem DPT_alreadyEmpty (g : DrainCtx) (s : PState) (h1 : g.matchLive = true)
    (h2 : s.active = true) (h3 : s.known = true) (h4 : s.isDeployed = true)
    (h5 : g.victimValid = true) (h6 : g.victimAlive = true)
    (h7 : s.queued ≤ 0 ∨ s.ticksLeft ≤ 0) :
    dmgSpreadProcessQueueTick g s = ⟨{ s with active := false }, 0, 0, 0⟩ := by
  simp only [dmgSpreadProcessQueueTick, h1, h2, h3, h4, h5, h6]
  simp [h7]

theorem DPT_step (g : DrainCtx) (s : PState) (h1 : g.matchLive = true)
    (h2 : s.active = true) (h3 : s.known = true) (h4 : s.isDeployed = true)
    (h5 : g.victimValid = true) (h6 : g.victimAlive = true)
    (h7 : ¬ (s.queued ≤ 0 ∨ s.ticksLeft ≤ 0)) :
    dmgSpreadProcessQueueTick g s =
      (let step := dmgSpreadProcessQueueTickStep s.queued s.ticksLeft
       let o := dmgDrainNested g { s with isReapplying := true }
       let s2 := { o.state with isReapplying := false }
       let s3 : PState :=
         { s2 with queued := s2.queued - step, ticksLeft := s2.ticksLeft - 1 }
       if s3.queued ≤ 0 ∨ s3.ticksLeft ≤ 0 then
         ⟨{ s3 with active := false }, step, o.healed, o.intercepted⟩
       else ⟨s3, step, o.healed, o.intercepted⟩) := by
  simp only [dmgSpreadProcessQueueTick, h1, h2, h3, h4, h5, h6]
  simp [h7]

theorem dmgDrainNested_preserves (g : DrainCtx) (s : PState) (hk : s.known = true) :
    (dmgDrainNested g { s with isReapplying := true }).state.queued = s.queued ∧
    (dmgDrainNested g { s with isReapplying := true }).state.ticksLeft = s.ticksLeft ∧
    (dmgDrainNested g { s with isReapplying := true }).state.active = s.active ∧
    (dmgDrainNested g { s with isReapplying := true }).state.known = s.known ∧
    (dmgDrainNested g { s with isReapplying := true }).state.isDeployed = s.isDeployed ∧
    (dmgDrainNested g { s with isReapplying := true }).healed = 0 ∧
    (dmgDrainNested g { s with isReapplying := true }).intercepted = 0 := by
  cases hne : g.nestedEvent with
  | none => simp [dmgDrainNested, hne]
  | some c =>
    simp only [dmgDrainNested, hne]
    set s1 : PState := { s with isReapplying := true } with hs1
    have hk1 : s1.known = true := hk
    rcases OPD_cases c s1 with h | h | h |
      ⟨prev, hprev, hdelta, hdep, hml, hvv, hva, hnr, hav, haiv, hst, h⟩
    · rw [h]
      simp [hs1]
    · rw [h, getOrCreate_known _ _ _ hk1]
      simp [hs1]
    · rw [h, getOrCreate_known _ _ _ hk1]
      simp [hs1]
    · rw [getOrCreate_known _ _ _ hk1] at hnr
      simp [hs1] at hnr

theorem DPT_accounting (g : DrainCtx) (s : PState)
    (hml : g.matchLive = true) (hvv : g.victimValid = true) (hva : g.victimAlive = true)
    (h0 : 0 ≤ s.queued)
    (h1 : s.ticksLeft ≤ 0 → s.queued = 0)
    (h2 : 0 < s.queued → s.known = true ∧ s.isDeployed = true) :
    (dmgSpreadProcessQueueTick g s).nestedHealed =
      (dmgSpreadProcessQueueTick g s).nestedIntercepted ∧
    (dmgSpreadProcessQueueTick g s).nestedIntercepted = 0 ∧
    (dmgSpreadProcessQueueTick g s).state.queued =
      s.queued - (dmgSpreadProcessQueueTick g s).step ∧
    0 ≤ (dmgSpreadProcessQueueTick g s).state.queued ∧
    ((dmgSpreadProcessQueueTick g s).state.ticksLeft ≤ 0 →
      (dmgSpreadProcessQueueTick g s).state.queued = 0) ∧
    (0 < (dmgSpreadProcessQueueTick g s).state.queued →
      (dmgSpreadProcessQueueTick g s).state.known = true ∧
      (dmgSpreadProcessQueueTick g s).state.isDeployed = true) := by
  have hknew : s.known = false ∨ s.isDeployed = false → s.queued = 0 := by
    intro hk
    rcases lt_or_eq_of_le h0 with h | h
    · rcases hk with hk | hk
      · exact absurd (h2 h).1 (by simp [hk])
      · exact absurd (h2 h).2 (by simp [hk])
    · exact h.symm
  cases ha : s.active with
  | false =>
    rw [DPT_inactive g s hml ha]
    exact ⟨rfl, rfl, by simp, h0, h1, h2⟩
  | true =>
  cases hk : s.known with
  | false =>
    rw [DPT_forceReset g s hml ha (Or.inl hk)]
    simp [hknew (Or.inl hk)]
  | true =>
  cases hd : s.isDeployed with
  | false =>
    rw [DPT_forceReset g s hml ha (Or.inr (Or.inl hd))]
    simp [hknew (Or.inr hd)]
  | true =>
  by_cases hq : s.queued ≤ 0 ∨ s.ticksLeft ≤ 0
  · rw [DPT_alreadyEmpty g s hml ha hk hd hvv hva hq]
    refine ⟨rfl, rfl, by simp, h0, h1, fun _ => ⟨hk, hd⟩⟩
  · rw [DPT_step g s hml ha hk hd hvv hva hq]
    push_neg at hq
    obtain ⟨hql, htl⟩ := hq
    obtain ⟨p1, p2, p3, p4, p5, p6, p7⟩ := dmgDrainNested_preserves g s hk
    simp only [p1, p2, p3, p4, p5, p6, p7]
    split_ifs with hcond
    · refine ⟨rfl, rfl, rfl, ?_, fun _ => ?_, fun hpos => ⟨hk, hd⟩⟩
      · simp only
        linarith [step_le_self s.queued s.ticksLeft]
      · simp only
        rcases hcond with hc | hc
        · linarith [step_le_self s.queued s.ticksLeft]
        · have hone : s.ticksLeft = 1 := by omega
          rw [hone, step_last]
          ring
    · refine ⟨rfl, rfl, rfl, ?_, fun hts => ?_, fun hpos => ⟨hk, hd⟩⟩
      · simp only
        linarith [step_le_self s.queued s.ticksLeft]
      · push_neg at hcond
        simp only at hts
        exact absurd hts (by omega)

/-! ## The conservation invariant -/

/-- Run invariant: applied steps plus the pending pool equal the intercepted
deltas, heal-backs equal intercepted deltas, the pool is non-negative, an
exhausted tick count means an empty pool, and a non-empty pool belongs to a
known, deployed player. -/
def dmgRunInv (a : RunAcc) : Prop :=
  a.steps + a.state.queued = a.deltas ∧
  a.heals = a.deltas ∧
  0 ≤ a.state.queued ∧
  (a.state.ticksLeft ≤ 0 → a.state.queued = 0) ∧
  (0 < a.state.queued → a.state.known = true ∧ a.state.isDeployed = true)

theorem dmgStepEvent_inv (a : RunAcc) (e : DmgEvent) (hok : dmgNoCancel e)
    (h : dmgRunInv a) : dmgRunInv (dmgStepEvent a e) := by
  obtain ⟨hi1, hi2, hi3, hi4, hi5⟩ := h
  cases e with
  | damaged c =>
    obtain ⟨a1, a2, a3, a4, a5⟩ := OnPlayerDamaged_accounting c a.state hi3 hi4 hi5
    refine ⟨?_, ?_, ?_, a4, a5⟩
    · simp only [dmgStepEvent, a3]
      linarith
    · simp only [dmgStepEvent, a1]
      linarith
    · simp only [dmgStepEvent, a3]
      linarith
  | drain g =>
    obtain ⟨hml, hvv, hva⟩ := hok
    obtain ⟨a1, a2, a3, a4, a5, a6⟩ := DPT_accounting g a.state hml hvv hva hi3 hi4 hi5
    refine ⟨?_, ?_, a4, a5, a6⟩
    · simp only [dmgStepEvent, a3]
      linarith
    · simp only [dmgStepEvent, a1, a2]
      linarith

theorem dmgRun_inv_aux :
    ∀ (evs : List DmgEvent) (a : RunAcc), dmgRunInv a →
      (∀ e ∈ evs, dmgNoCancel e) → dmgRunInv (evs.foldl dmgStepEvent a) := by
  intro evs
  induction evs with
  | nil => intro a h _; simpa using h
  | cons e evs ih =>
    intro a h hok
    rw [List.foldl_cons]
    exact ih (dmgStepEvent a e) (dmgStepEvent_inv a e (hok e (by simp)) h)
      fun x hx => hok x (by simp [hx])

theorem dmgRun_inv (s0 : PState) (hs0 : s0.queued = 0) (evs : List DmgEvent)
    (hok : ∀ e ∈ evs, dmgNoCancel e) : dmgRunInv (dmgRunEvents s0 evs) := by
  apply dmgRun_inv_aux evs ⟨s0, 0, 0, 0⟩ _ hok
  refine ⟨by simp [hs0], rfl, by simp [hs0], fun _ => hs0, fun hq => ?_⟩
  rw [hs0] at hq
  exact absurd hq (lt_irrefl 0)

/-! ## Claim theorems -/

/-- Claim C6: at tick rate 30, `computeDuration` (distance bucketing composed
with seconds-to-ticks conversion and health scaling) maps distance 5 m at
normalized health 1.0 to 60 ticks, distance 5 m at normalized health 0.0 to
27 ticks, and distance 30 m at normalized health 1.0 to 48 ticks. -/
theorem C6_bucketed_duration :
    computeDuration 5 1 = 60 ∧ computeDuration 5 0 = 27 ∧ computeDuration 30 1 = 48 := by
  refine ⟨?_, ?_, ?_⟩ <;> with_unfolding_all rfl

/-- Claim C9: every cadence bucket interval is `max(1, floor(tickRate /
divisor))`, so `perfMakeCadence 30` has `uiScores = 10` and
`perfEveryTicks 30 10` is true because `30 mod 10 = 0`; and the round-robin
slice of a 5-item list at cursor 4 with 3 items per execution returns items
4, 0 and 1 with the cursor wrapped to 2. -/
theorem C9_cadence :
    (∀ tickRate : ℚ, perfMakeCadence tickRate =
      { fast := max 1 ⌊tickRate / 10⌋, captureLogic := max 1 ⌊tickRate / 6⌋
        uiScores := max 1 ⌊tickRate / 3⌋, sfx := max 1 ⌊tickRate / 2⌋ }) ∧
    (perfMakeCadence 30).uiScores = 10 ∧
    perfEveryTicks 30 (((perfMakeCadence 30).uiScores : Int) : ℚ) = true ∧
    (30 : Int) % 10 = 0 ∧
    (∀ (α : Type) (x0 x1 x2 x3 x4 : α),
      perfRoundRobinSlice [x0, x1, x2, x3, x4] 4 3 =
        ([some x4, some x0, some x1], 2)) := by
  refine ⟨fun tickRate => rfl, by with_unfolding_all rfl, by with_unfolding_all rfl,
    by decide, fun α x0 x1 x2 x3 x4 => by with_unfolding_all rfl⟩

/-- Claim C10: when the attacker handle is invalid or either soldier is not
alive, `dmgSpreadDistanceMeters` returns the sentinel 99999 m, which exceeds
the 25 m mid bucket bound, so `dmgSpreadPickTicks` picks the far-range base
duration of 1.6 s = 48 ticks at tick rate 30. -/
theorem C10_distance_fallback (attackerValid victimAlive attackerAlive : Bool)
    (hostDistance : ℚ)
    (h : attackerValid = false ∨ victimAlive = false ∨ attackerAlive = false) :
    dmgSpreadDistanceMeters attackerValid victimAlive attackerAlive hostDistance = 99999 ∧
    ¬ (99999 : ℚ) ≤ DMG_SPREAD_MID_MAX_DIST ∧
    dmgSpreadPickTicks 99999 = dmgSpreadSecondsToTicks DMG_SPREAD_FAR_SEC ∧
    dmgSpreadSecondsToTicks DMG_SPREAD_FAR_SEC = 48 := by
  refine ⟨?_, by norm_num [DMG_SPREAD_MID_MAX_DIST], by with_unfolding_all rfl,
    by with_unfolding_all rfl⟩
  rcases h with h | h | h <;> simp [dmgSpreadDistanceMeters, h]

/-- Witness for C10 at the concrete input of an invalid attacker 7 m away. -/
theorem C10_distance_fallback_witness :
    dmgSpreadDistanceMeters false true true 7 = 99999 ∧
    ¬ (99999 : ℚ) ≤ DMG_SPREAD_MID_MAX_DIST ∧
    dmgSpreadPickTicks 99999 = dmgSpreadSecondsToTicks DMG_SPREAD_FAR_SEC ∧
    dmgSpreadSecondsToTicks DMG_SPREAD_FAR_SEC = 48 :=
  C10_distance_fallback false true true 7 (Or.inl rfl)

/-- Claim C1: in any event sequence in which every drain visit happens with
the match live and the victim valid and alive (no cancellation), once the
pending pool has drained to zero the total damage reapplied by drain steps
equals the total of the raw deltas intercepted by `OnPlayerDamaged`, and the
total instantaneous heal-back also equals that total — smoothing never
changes total damage dealt. -/
theorem C1_conservation (s0 : PState) (hs0 : s0.queued = 0)
    (evs : List DmgEvent) (hok : ∀ e ∈ evs, dmgNoCancel e)
    (hdrained : (dmgRunEvents s0 evs).state.queued = 0) :
    (dmgRunEvents s0 evs).steps = (dmgRunEvents s0 evs).deltas ∧
    (dmgRunEvents s0 evs).heals = (dmgRunEvents s0 evs).deltas := by
  obtain ⟨h1, h2, h3, h4, h5⟩ := dmgRun_inv s0 hs0 evs hok
  exact ⟨by rw [← h1, hdrained, add_zero], h2⟩

/-- Witness for C1 on a concrete trace: a hit of delta 2 followed by two
drain visits that empty the pool. -/
theorem C1_conservation_witness :
    (dmgRunEvents witDeployed witTrace).steps = (dmgRunEvents witDeployed witTrace).deltas ∧
    (dmgRunEvents witDeployed witTrace).heals = (dmgRunEvents witDeployed witTrace).deltas :=
  C1_conservation witDeployed rfl witTrace (by decide) (by with_unfolding_all rfl)

/-- Claim C2 counterexample: in the part_002 drain loop (`dmgSpreadTick`),
whose step is `max(1, ceil(remaining / ticks))` with no upper clamp, a
pending pool of 1/2 with 27 ticks remaining produces a step of 1, which
exceeds the remaining pool — refuting the claim that in every implementation
the step equals `clamp(ceil(pending / ticks), 1, pending)` and never exceeds
the pending amount. -/
theorem C2_drain_step_counterexample :
    0 < (1/2 : ℚ) ∧ 0 < (27 : Int) ∧
    dmgSpreadTickStep (1/2) 27 = 1 ∧
    ¬ dmgSpreadTickStep (1/2) 27 ≤ 1/2 := by
  refine ⟨by norm_num, by norm_num, by with_unfolding_all rfl, ?_⟩
  have h : dmgSpreadTickStep (1/2) 27 = 1 := by with_unfolding_all rfl
  rw [h]
  norm_num

/-- Claim C2 (amended): in the part_001 and DamageSmoothing.ts drain loops
the applied step equals `clamp(ceil(pending / ticks), 1, pending)`, is
positive, never exceeds the remaining pool, and the pool empties in at most
`ticksRemaining` applications; the part_002 drain loop instead computes
`max(1, ceil(pending / ticks))` without the upper clamp. -/
theorem C2_drain_step_amended (remaining : ℚ) (ticksLeft : Int)
    (hr : 0 < remaining) (ht : 0 < ticksLeft) :
    dmgSpreadProcessQueueTickStep remaining ticksLeft =
      min (max 1 ((⌈remaining / (ticksLeft : ℚ)⌉ : ℤ) : ℚ)) remaining ∧
    dmgSpreadProcessQueueTickStep remaining ticksLeft ≤ remaining ∧
    0 < dmgSpreadProcessQueueTickStep remaining ticksLeft ∧
    (∀ n : ℕ, ticksLeft ≤ (n : Int) →
      ((drainPairStep^[n]) (remaining, ticksLeft)).1 = 0) ∧
    dmgSpreadTickStep remaining ticksLeft =
      max 1 ((⌈remaining / (ticksLeft : ℚ)⌉ : ℤ) : ℚ) := by
  refine ⟨step_eq_clamp _ _, step_le_self _ _, step_pos _ _ hr, ?_, rfl⟩
  intro n hn
  exact drainPair_empties n remaining ticksLeft (le_of_lt hr) fun _ => ⟨ht, hn⟩

/-- Witness for the amended C2 at pending 3, ticks 2. -/
theorem C2_drain_step_amended_witness :
    dmgSpreadProcessQueueTickStep 3 2 =
      min (max 1 ((⌈(3 : ℚ) / ((2 : Int) : ℚ)⌉ : ℤ) : ℚ)) 3 ∧
    dmgSpreadProcessQueueTickStep 3 2 ≤ 3 ∧
    0 < dmgSpreadProcessQueueTickStep 3 2 ∧
    (∀ n : ℕ, (2 : Int) ≤ (n : Int) →
      ((drainPairStep^[n]) ((3 : ℚ), (2 : Int))).1 = 0) ∧
    dmgSpreadTickStep 3 2 = max 1 ((⌈(3 : ℚ) / ((2 : Int) : ℚ)⌉ : ℤ) : ℚ) :=
  C2_drain_step_amended 3 2 (by norm_num) (by norm_num)

/-- Claim C3 counterexample: a drain tick on an active player with pending
pool 1 and 27 ticks remaining (the duration a close-range hit on a near-dead
victim computes) deactivates the player with `pendingAmount = 0` but
`ticksRemaining = 26 ≠ 0` — refuting the claim that `pendingAmount == 0` and
`ticksRemaining == 0` always co-occur at deactivation. -/
theorem C3_deactivation_counterexample :
    witSmoothing.active = true ∧
    (dmgSpreadProcessQueueTick witDrain witSmoothing).state.active = false ∧
    (dmgSpreadProcessQueueTick witDrain witSmoothing).state.queued = 0 ∧
    (dmgSpreadProcessQueueTick witDrain witSmoothing).state.ticksLeft = 26 ∧
    (26 : Int) ≠ 0 := by
  refine ⟨rfl, ?_, ?_, ?_, by decide⟩ <;> with_unfolding_all rfl

/-- Claim C3 (amended): when the match is live, a player deactivated by the
drain tick has `pendingAmount ≤ 0` or `ticksRemaining ≤ 0` at that moment
(both are exactly zero when the removal is the forced reset of an invalid,
dead, undeployed or untracked player, but an early-emptied pool can leave
`ticksRemaining` positive); and no player is still active after the drain
tick with a non-positive pool or tick count. -/
theorem C3_deactivation_amended (g : DrainCtx) (s : PState)
    (hml : g.matchLive = true) :
    (s.active = true → (dmgSpreadProcessQueueTick g s).state.active = false →
      (dmgSpreadProcessQueueTick g s).state.queued ≤ 0 ∨
      (dmgSpreadProcessQueueTick g s).state.ticksLeft ≤ 0) ∧
    (s.active = true →
      (s.known = false ∨ s.isDeployed = false ∨ g.victimValid = false ∨
        g.victimAlive = false) →
      (dmgSpreadProcessQueueTick g s).state.queued = 0 ∧
      (dmgSpreadProcessQueueTick g s).state.ticksLeft = 0) ∧
    ((dmgSpreadProcessQueueTick g s).state.active = true →
      0 < (dmgSpreadProcessQueueTick g s).state.queued ∧
      0 < (dmgSpreadProcessQueueTick g s).state.ticksLeft) := by
  cases ha : s.active with
  | false =>
    rw [DPT_inactive g s hml ha]
    exact ⟨fun h => by simp [ha] at h, fun h => by simp [ha] at h,
      fun h => by rw [ha] at h; exact absurd h (by simp)⟩
  | true =>
  by_cases hforce : s.known = false ∨ s.isDeployed = false ∨ g.victimValid = false ∨
      g.victimAlive = false
  · rw [DPT_forceReset g s hml ha hforce]
    exact ⟨fun _ _ => Or.inl (le_refl 0), fun _ _ => ⟨rfl, rfl⟩,
      fun h => by simp at h⟩
  · push_neg at hforce
    obtain ⟨hk, hd, hvv, hva⟩ := hforce
    simp only [Bool.not_eq_false] at hk hd hvv hva
    by_cases hq : s.queued ≤ 0 ∨ s.ticksLeft ≤ 0
    · rw [DPT_alreadyEmpty g s hml ha hk hd hvv hva hq]
      exact ⟨fun _ _ => hq, fun _ h => absurd h (by simp [hk, hd, hvv, hva]),
        fun h => by simp at h⟩
    · rw [DPT_step g s hml ha hk hd hvv hva hq]
      obtain ⟨p1, p2, p3, p4, p5, p6, p7⟩ := dmgDrainNested_preserves g s hk
      simp only [p1, p2, p3, p4, p5, p6, p7]
      split_ifs with hcond
      · exact ⟨fun _ _ => hcond, fun _ h => absurd h (by simp [hk, hd, hvv, hva]),
          fun h => by simp at h⟩
      · push_neg at hcond
        refine ⟨fun _ h => ?_, fun _ h => absurd h (by simp [hk, hd, hvv, hva]),
          fun _ => ?_⟩
        · dsimp only at h
          rw [ha] at h
          exact absurd h (by simp)
        · dsimp only
          exact hcond

/-- Witness for the amended C3 at the drained concrete state: the
deactivated player indeed has a non-positive pool or tick count. -/
theorem C3_deactivation_amended_witness :
    (dmgSpreadProcessQueueTick witDrain witSmoothing).state.queued ≤ 0 ∨
    (dmgSpreadProcessQueueTick witDrain witSmoothing).state.ticksLeft ≤ 0 :=
  (C3_deactivation_amended witDrain witSmoothing rfl).1 rfl (by with_unfolding_all rfl)

/-- Claim C5: a damage event whose attacker is the victim, or whose attacker
is on the victim's team, or which is the engine's own guarded corrective
reapplication (re-entrancy flag set for the victim's id), leaves the pending
queue (pendingAmount, ticksRemaining, attackerRef), the active flag, the
deployment state and the re-entrancy flag unchanged, heals nothing and
enqueues nothing; at most the cached baseline is refreshed to the victim's
current health. -/
theorem C5_no_self_friendly_reentrant (c : HitCtx) (s : PState)
    (hwf : s.known = false → s.queued = 0 ∧ s.ticksLeft = 0 ∧ s.giverObjId = 0 ∧
      s.active = false ∧ s.isDeployed = false ∧ s.isReapplying = false)
    (hcond : c.attackerIsVictim = true ∨ c.sameTeam = true ∨ s.isReapplying = true) :
    (OnPlayerDamaged c s).state.queued = s.queued ∧
    (OnPlayerDamaged c s).state.ticksLeft = s.ticksLeft ∧
    (OnPlayerDamaged c s).state.giverObjId = s.giverObjId ∧
    (OnPlayerDamaged c s).state.active = s.active ∧
    (OnPlayerDamaged c s).state.isDeployed = s.isDeployed ∧
    (OnPlayerDamaged c s).state.isReapplying = s.isReapplying ∧
    (OnPlayerDamaged c s).healed = 0 ∧
    (OnPlayerDamaged c s).intercepted = 0 ∧
    ((OnPlayerDamaged c s).state.lastHealth = s.lastHealth ∨
     (OnPlayerDamaged c s).state.lastHealth = some c.curHealth) := by
  rcases OPD_cases c s with h | h | h |
    ⟨prev, hprev, hdelta, hdep, hml, hvv, hva, hnr, hav, haiv, hst, h⟩
  · rw [h]
    exact ⟨rfl, rfl, rfl, rfl, rfl, rfl, rfl, rfl, Or.inl rfl⟩
  · rw [h]
    cases hk : s.known with
    | true =>
      rw [getOrCreate_known _ _ _ hk]
      exact ⟨rfl, rfl, rfl, rfl, rfl, rfl, rfl, rfl, Or.inl rfl⟩
    | false =>
      obtain ⟨w1, w2, w3, w4, w5, w6⟩ := hwf hk
      rw [getOrCreate_new _ _ _ hk]
      exact ⟨by simp [w1], by simp [w2], by simp [w3], by simp [w4], by simp [w5],
        by simp [w6], rfl, rfl, Or.inr rfl⟩
  · rw [h]
    cases hk : s.known with
    | true =>
      rw [getOrCreate_known _ _ _ hk]
      exact ⟨rfl, rfl, rfl, rfl, rfl, rfl, rfl, rfl, Or.inr rfl⟩
    | false =>
      obtain ⟨w1, w2, w3, w4, w5, w6⟩ := hwf hk
      rw [getOrCreate_new _ _ _ hk]
      exact ⟨by simp [w1], by simp [w2], by simp [w3], by simp [w4], by simp [w5],
        by simp [w6], rfl, rfl, Or.inr rfl⟩
  · exfalso
    have hk : s.known = true := by
      cases hkk : s.known with
      | true => rfl
      | false =>
        rw [getOrCreate_new _ _ _ hkk] at hdep
        simp at hdep
    rw [getOrCreate_known _ _ _ hk] at hnr
    rcases hcond with hc | hc | hc
    · rw [hc] at haiv
      exact absurd haiv (by simp)
    · rw [hc] at hst
      exact absurd hst (by simp)
    · rw [show ({ s with handle := c.victimHandle } : PState).isReapplying =
        s.isReapplying from rfl, hc] at hnr
      exact absurd hnr (by simp)

/-- Witness for C5 at a concrete friendly-fire hit on a tracked deployed
player. -/
theorem C5_no_self_friendly_reentrant_witness :
    (OnPlayerDamaged witFriendlyHit witBaseline50).state.queued = witBaseline50.queued ∧
    (OnPlayerDamaged witFriendlyHit witBaseline50).state.ticksLeft = witBaseline50.ticksLeft ∧
    (OnPlayerDamaged witFriendlyHit witBaseline50).state.giverObjId = witBaseline50.giverObjId ∧
    (OnPlayerDamaged witFriendlyHit witBaseline50).state.active = witBaseline50.active ∧
    (OnPlayerDamaged witFriendlyHit witBaseline50).state.isDeployed = witBaseline50.isDeployed ∧
    (OnPlayerDamaged witFriendlyHit witBaseline50).state.isReapplying = witBaseline50.isReapplying ∧
    (OnPlayerDamaged witFriendlyHit witBaseline50).healed = 0 ∧
    (OnPlayerDamaged witFriendlyHit witBaseline50).intercepted = 0 ∧
    ((OnPlayerDamaged witFriendlyHit witBaseline50).state.lastHealth = witBaseline50.lastHealth ∨
     (OnPlayerDamaged witFriendlyHit witBaseline50).state.lastHealth =
       some witFriendlyHit.curHealth) :=
  C5_no_self_friendly_reentrant witFriendlyHit witBaseline50
    (by intro h; exact absurd h (by decide)) (Or.inr (Or.inl rfl))

/-- Claim C7: an intercepted enemy hit adds its delta to the pending pool
(additive, never replacing), overwrites the remaining tick count with the
duration computed for this hit, overwrites the credited attacker object id
with the new attacker's, marks the player active, and the delta is exactly
the cached baseline minus the current health. -/
theorem C7_repeated_hit_enqueue (c : HitCtx) (s : PState)
    (_hpending : 0 < s.queued)
    (hint : (OnPlayerDamaged c s).intercepted ≠ 0) :
    (OnPlayerDamaged c s).state.queued = s.queued + (OnPlayerDamaged c s).intercepted ∧
    0 < (OnPlayerDamaged c s).intercepted ∧
    (OnPlayerDamaged c s).state.ticksLeft =
      computeDuration
        (dmgSpreadDistanceMeters c.attackerValid c.victimAlive c.attackerAlive
          c.hostDistance) c.normHealth ∧
    (OnPlayerDamaged c s).state.giverObjId = c.attackerObjId ∧
    (OnPlayerDamaged c s).state.active = true ∧
    s.lastHealth = some (c.curHealth + (OnPlayerDamaged c s).intercepted) := by
  rcases OPD_cases c s with h | h | h |
    ⟨prev, hprev, hdelta, hdep, hml, hvv, hva, hnr, hav, haiv, hst, h⟩
  · rw [h] at hint
    exact absurd rfl hint
  · rw [h] at hint
    exact absurd rfl hint
  · rw [h] at hint
    exact absurd rfl hint
  · have hk : s.known = true := by
      cases hkk : s.known with
      | true => rfl
      | false =>
        rw [getOrCreate_new _ _ _ hkk] at hdep
        simp at hdep
    rw [getOrCreate_known _ _ _ hk] at hprev h
    rw [h]
    refine ⟨by simp, hdelta, rfl, rfl, rfl, ?_⟩
    have : s.lastHealth = some prev := hprev
    rw [this]
    congr 1
    ring

/-- Witness for C7: a second enemy hit of delta 30 on a player already
smoothing a pool of 4. -/
theorem C7_repeated_hit_enqueue_witness :
    (OnPlayerDamaged witSecondHit witPending).state.queued =
      witPending.queued + (OnPlayerDamaged witSecondHit witPending).intercepted ∧
    0 < (OnPlayerDamaged witSecondHit witPending).intercepted ∧
    (OnPlayerDamaged witSecondHit witPending).state.ticksLeft =
      computeDuration
        (dmgSpreadDistanceMeters witSecondHit.attackerValid witSecondHit.victimAlive
          witSecondHit.attackerAlive witSecondHit.hostDistance)
        witSecondHit.normHealth ∧
    (OnPlayerDamaged witSecondHit witPending).state.giverObjId =
      witSecondHit.attackerObjId ∧
    (OnPlayerDamaged witSecondHit witPending).state.active = true ∧
    witPending.lastHealth =
      some (witSecondHit.curHealth + (OnPlayerDamaged witSecondHit witPending).intercepted) :=
  C7_repeated_hit_enqueue witSecondHit witPending (by decide)
    (by with_unfolding_all decide)

/-- Claim C4 counterexample: a call short-circuited by the first condition
(match not live) returns without touching the cached baseline: the baseline
stays 50 while the victim's current health is 30 — refuting the claim that
every short-circuited call updates the baseline to the current health. -/
theorem C4_baseline_counterexample :
    witNotLiveHit.matchLive = false ∧
    (OnPlayerDamaged witNotLiveHit witBaseline50).intercepted = 0 ∧
    (OnPlayerDamaged witNotLiveHit witBaseline50).state.lastHealth = some 50 ∧
    ¬ (OnPlayerDamaged witNotLiveHit witBaseline50).state.lastHealth =
      some witNotLiveHit.curHealth := by
  have h := OPD_notLive witNotLiveHit witBaseline50 rfl
  rw [h]
  exact ⟨rfl, rfl, rfl, by decide⟩

/-- Claim C4 (amended): every short-circuited `OnPlayerDamaged` call queues
no smoothing (pendingAmount, ticksRemaining, attackerRef and the active flag
are unchanged, and nothing is healed).  The re-entrancy, attacker-invalid /
self-damage, same-team, no-baseline and non-positive-delta short-circuits
update the cached baseline to the victim's current health, and so does the
not-deployed short-circuit when it first creates the registry record; but
the match-not-live, victim-invalid and victim-not-alive short-circuits
return with the whole state untouched, and the not-deployed short-circuit
leaves the baseline of an already-tracked victim unchanged. -/
theorem C4_baseline_amended (c : HitCtx) (s : PState)
    (hwf : s.known = false → s.queued = 0 ∧ s.ticksLeft = 0 ∧ s.giverObjId = 0 ∧
      s.active = false ∧ s.isDeployed = false ∧ s.isReapplying = false)
    (hsc : (OnPlayerDamaged c s).intercepted = 0) :
    (OnPlayerDamaged c s).state.queued = s.queued ∧
    (OnPlayerDamaged c s).state.ticksLeft = s.ticksLeft ∧
    (OnPlayerDamaged c s).state.giverObjId = s.giverObjId ∧
    (OnPlayerDamaged c s).state.active = s.active ∧
    (OnPlayerDamaged c s).healed = 0 ∧
    (¬ (c.matchLive = true ∧ c.victimValid = true ∧ c.victimAlive = true) →
      OnPlayerDamaged c s = ⟨s, 0, 0⟩) ∧
    (c.matchLive = true ∧ c.victimValid = true ∧ c.victimAlive = true →
      (s.known = true ∧ s.isDeployed = false →
        (OnPlayerDamaged c s).state.lastHealth = s.lastHealth) ∧
      (s.known = false ∨ s.isDeployed = true →
        (OnPlayerDamaged c s).state.lastHealth = some c.curHealth)) := by
  have hqueue : (OnPlayerDamaged c s).state.queued = s.queued ∧
      (OnPlayerDamaged c s).state.ticksLeft = s.ticksLeft ∧
      (OnPlayerDamaged c s).state.giverObjId = s.giverObjId ∧
      (OnPlayerDamaged c s).state.active = s.active ∧
      (OnPlayerDamaged c s).healed = 0 := by
    rcases OPD_cases c s with h | h | h |
      ⟨prev, hprev, hdelta, hdep, hml, hvv, hva, hnr, hav, haiv, hst, h⟩
    · rw [h]
      exact ⟨rfl, rfl, rfl, rfl, rfl⟩
    · rw [h]
      cases hk : s.known with
      | true =>
        rw [getOrCreate_known _ _ _ hk]
        exact ⟨rfl, rfl, rfl, rfl, rfl⟩
      | false =>
        obtain ⟨w1, w2, w3, w4, w5, w6⟩ := hwf hk
        rw [getOrCreate_new _ _ _ hk]
        exact ⟨by simp [w1], by simp [w2], by simp [w3], by simp [w4], rfl⟩
    · rw [h]
      cases hk : s.known with
      | true =>
        rw [getOrCreate_known _ _ _ hk]
        exact ⟨rfl, rfl, rfl, rfl, rfl⟩
      | false =>
        obtain ⟨w1, w2, w3, w4, w5, w6⟩ := hwf hk
        rw [getOrCreate_new _ _ _ hk]
        exact ⟨by simp [w1], by simp [w2], by simp [w3], by simp [w4], rfl⟩
    · rw [h] at hsc
      dsimp only at hsc
      rw [hsc] at hdelta
      exact absurd hdelta (by simp)
  refine ⟨hqueue.1, hqueue.2.1, hqueue.2.2.1, hqueue.2.2.2.1, hqueue.2.2.2.2, ?_, ?_⟩
  · intro hbad
    cases h1 : c.matchLive with
    | false => exact OPD_notLive c s h1
    | true =>
    cases h2 : c.victimValid with
    | false => exact OPD_invalid c s h1 h2
    | true =>
    cases h3 : c.victimAlive with
    | false => exact OPD_dead c s h1 h2 h3
    | true => exact absurd ⟨h1, h2, h3⟩ hbad
  · rintro ⟨h1, h2, h3⟩
    constructor
    · rintro ⟨hk, hd⟩
      have h4 : (getOrCreateServerPlayer c.victimHandle c.curHealth s).isDeployed = false := by
        rw [getOrCreate_known _ _ _ hk]
        exact hd
      rw [OPD_notDeployed c s h1 h2 h3 h4, getOrCreate_known _ _ _ hk]
    · intro hkd
      cases hk : s.known with
      | false =>
        have h4 : (getOrCreateServerPlayer c.victimHandle c.curHealth s).isDeployed = false := by
          rw [getOrCreate_new _ _ _ hk]
        rw [OPD_notDeployed c s h1 h2 h3 h4, getOrCreate_new _ _ _ hk]
      | true =>
        have hd : s.isDeployed = true := by
          rcases hkd with hkd | hkd
          · rw [hk] at hkd
            exact absurd hkd (by simp)
          · exact hkd
        have h4 : (getOrCreateServerPlayer c.victimHandle c.curHealth s).isDeployed = true := by
          rw [getOrCreate_known _ _ _ hk]
          exact hd
        cases h5 : (getOrCreateServerPlayer c.victimHandle c.curHealth s).isReapplying with
        | true => rw [OPD_guarded c s h1 h2 h3 h4 h5]
        | false =>
        cases h6 : c.attackerValid with
        | false => rw [OPD_selfOrInvalid c s h1 h2 h3 h4 h5 (Or.inl h6)]
        | true =>
        cases h7 : c.attackerIsVictim with
        | true => rw [OPD_selfOrInvalid c s h1 h2 h3 h4 h5 (Or.inr h7)]
        | false =>
        cases h8 : c.sameTeam with
        | true => rw [OPD_sameTeam c s h1 h2 h3 h4 h5 h6 h7 h8]
        | false =>
        cases h9 : (getOrCreateServerPlayer c.victimHandle c.curHealth s).lastHealth with
        | none => rw [OPD_noBaseline c s h1 h2 h3 h4 h5 h6 h7 h8 h9]
        | some prev =>
        rcases le_or_lt (prev - c.curHealth) 0 with h10 | h10
        · rw [OPD_noDelta c s prev h1 h2 h3 h4 h5 h6 h7 h8 h9 h10]
        · exfalso
          rw [OPD_intercept c s prev h1 h2 h3 h4 h5 h6 h7 h8 h9 (not_le.mpr h10)] at hsc
          dsimp only at hsc
          rw [hsc] at h10
          exact absurd h10 (by simp)

/-- Witness for the amended C4: a live same-team hit on a tracked deployed
player refreshes only the baseline and queues nothing. -/
theorem C4_baseline_amended_witness :
    (OnPlayerDamaged witFriendlyHit witBaseline50).state.lastHealth =
      some witFriendlyHit.curHealth :=
  ((C4_baseline_amended witFriendlyHit witBaseline50
      (by intro h; exact absurd h (by decide))
      (by with_unfolding_all rfl)).2.2.2.2.2.2
    (by decide)).2 (Or.inr rfl)

/-- Claim C8 counterexample: creating a record for a first-seen player whose
current health is 100 seeds the cached HealthBaseline to 100, not to
zero/empty — refuting the claim that the baseline is seeded to zero/empty on
first creation. -/
theorem C8_getOrCreate_counterexample :
    (getOrCreateServerPlayer 1 100 initPState).lastHealth = some 100 ∧
    (getOrCreateServerPlayer 1 100 initPState).lastHealth ≠ none ∧
    (getOrCreateServerPlayer 1 100 initPState).lastHealth ≠ some 0 := by
  refine ⟨rfl, by simp [getOrCreateServerPlayer, initPState], ?_⟩
  have h : (getOrCreateServerPlayer 1 100 initPState).lastHealth = some 100 := rfl
  rw [h]
  intro hcontra
  rw [Option.some_inj] at hcontra
  exact absurd hcontra (by norm_num)

/-- Claim C8 (amended): `getOrCreateServerPlayer` returns the existing
record for the player's identity if one exists, refreshing only the stored
handle; otherwise it creates a record with `isDeployed = false`, the queue
entries (pendingAmount, ticksRemaining, attackerRef, active flag,
re-entrancy flag) zeroed/false, and the HealthBaseline seeded to the
player's current health (not zero/empty); in both cases the stored handle
equals the handle passed in. -/
theorem C8_getOrCreate_amended (handle : Int) (cur : ℚ) (s : PState) :
    (getOrCreateServerPlayer handle cur s).handle = handle ∧
    (s.known = true → getOrCreateServerPlayer handle cur s = { s with handle := handle }) ∧
    (s.known = false →
      (getOrCreateServerPlayer handle cur s).known = true ∧
      (getOrCreateServerPlayer handle cur s).isDeployed = false ∧
      (getOrCreateServerPlayer handle cur s).lastHealth = some cur ∧
      (getOrCreateServerPlayer handle cur s).queued = 0 ∧
      (getOrCreateServerPlayer handle cur s).ticksLeft = 0 ∧
      (getOrCreateServerPlayer handle cur s).giverObjId = 0 ∧
      (getOrCreateServerPlayer handle cur s).active = false ∧
      (getOrCreateServerPlayer handle cur s).isReapplying = false) := by
  refine ⟨?_, fun hk => getOrCreate_known _ _ _ hk, fun hk => ?_⟩
  · cases hk : s.known with
    | true => rw [getOrCreate_known _ _ _ hk]
    | false => rw [getOrCreate_new _ _ _ hk]
  · rw [getOrCreate_new _ _ _ hk]
    exact ⟨rfl, rfl, rfl, rfl, rfl, rfl, rfl, rfl⟩

/-- Witness for the amended C8: creating a record for a first-seen player at
health 80 with handle 2. -/
theorem C8_getOrCreate_amended_witness :
    (getOrCreateServerPlayer 2 80 initPState).known = true ∧
    (getOrCreateServerPlayer 2 80 initPState).isDeployed = false ∧
    (getOrCreateServerPlayer 2 80 initPState).lastHealth = some 80 ∧
    (getOrCreateServerPlayer 2 80 initPState).queued = 0 ∧
    (getOrCreateServerPlayer 2 80 initPState).ticksLeft = 0 ∧
    (getOrCreateServerPlayer 2 80 initPState).giverObjId = 0 ∧
    (getOrCreateServerPlayer 2 80 initPState).active = false ∧
    (getOrCreateServerPlayer 2 80 initPState).isReapplying = false :=
  (C8_getOrCreate_amended 2 80 initPState).2.2 rfl
